import Mathlib

/-!
# go-crud: the todo handlers of `todo.go`

A shallow embedding of `src/todo.go`: the two record types, the title
validator, the four request handlers, `init`, and the routing table, over an
explicit process state (the two package globals `rnd` and `db`).

The HTTP router, the JSON renderer and the document store are libraries the
file calls; they are modelled by their documented contracts, each definition
saying which call it stands for.  A response is recorded as the
`(status, value)` pair handed to `rnd.JSON`; a handler run yields the list of
those pairs in call order, the process state afterwards, the store calls it
issued, and how it ended (returned, panicked on a nil pointer, or terminated
the process through `log.Fatal`).
-/

namespace GoCrud

/-! ## Go values -/

/-- Go `error` values are represented by their message. -/
abbrev Error := String

/-- Go `time.Time`, as nanoseconds since the Unix epoch. -/
structure Time where
  nsec : Int
deriving DecidableEq, Repr

/-- The zero value `time.Time{}`: January 1 of year 1, 62135596800 seconds
before the epoch. -/
def Time.zero : Time := ⟨-62135596800000000000⟩

/-- The raw bytes of a `bson.ObjectId` (`type ObjectId string`). -/
abbrev ObjectId := List Nat

/-! ## Constants of `todo.go` -/

def hostName : String := "localhost:27017"

def dbName : String := "demo_table"

def collectionName : String := "todo"

def port : String := ":9000"

def StatusProcessing : Nat := 102

def StatusOK : Nat := 200

def StatusCreated : Nat := 201

def StatusBadRequest : Nat := 400

/-! ## The two record types -/

/-- The persisted record: `todoModel` with bson keys `_id` (omitempty),
`title`, `completed`, `createdAt`. -/
structure todoModel where
  ID : ObjectId
  Title : String
  Completed : Bool
  CreatedAt : Time
deriving DecidableEq, Repr

/-- The wire record: `todo`, with json tags only (so its bson keys are the
lower-cased field names `id`, `title`, `completed`, `createdat`). -/
structure todo where
  ID : String
  Title : String
  Completed : Bool
  CreatedAt : Time
deriving DecidableEq, Repr

/-- The validator `validateTodoObject` (lines 76-82). -/
def validateTodoObject (t : todo) : Bool :=
  if t.Title = " " then
    false
  else
    true

/-! ## Strings, as the Go standard library treats them -/

/-- The UTF-8 encoding of one character: the bytes a Go string holds for it. -/
def utf8Encode (c : Char) : List Nat :=
  let n := c.toNat
  if n < 0x80 then [n]
  else if n < 0x800 then [0xC0 + n / 64, 0x80 + n % 64]
  else if n < 0x10000 then [0xE0 + n / 4096, 0x80 + n / 64 % 64, 0x80 + n % 64]
  else [0xF0 + n / 262144, 0x80 + n / 4096 % 64, 0x80 + n / 64 % 64, 0x80 + n % 64]

/-- The bytes of a Go string. -/
def bytes (s : String) : List Nat :=
  s.data.flatMap utf8Encode

/-- Go `len(s)` on a string: its length in bytes. -/
def len (s : String) : Nat :=
  (bytes s).length

/-- Go `unicode.IsSpace`: the white space characters `strings.TrimSpace` cuts. -/
def isSpace (c : Char) : Bool :=
  let n := c.toNat
  n == 0x09 || n == 0x0A || n == 0x0B || n == 0x0C || n == 0x0D || n == 0x20 ||
  n == 0x85 || n == 0xA0 || n == 0x1680 || (0x2000 ≤ n && n ≤ 0x200A) ||
  n == 0x2028 || n == 0x2029 || n == 0x202F || n == 0x205F || n == 0x3000

/-- Go `strings.TrimSpace`: leading and trailing white space removed. -/
def TrimSpace (s : String) : String :=
  ⟨((s.data.dropWhile isSpace).reverse.dropWhile isSpace).reverse⟩

/-- The value of one hexadecimal digit, in either case (`encoding/hex`). -/
def fromHexChar (c : Char) : Option Nat :=
  let n := c.toNat
  if 48 ≤ n ∧ n ≤ 57 then some (n - 48)
  else if 97 ≤ n ∧ n ≤ 102 then some (n - 97 + 10)
  else if 65 ≤ n ∧ n ≤ 70 then some (n - 65 + 10)
  else none

/-- Go `hex.DecodeString`: two digits per byte; `none` for an odd length or a
character that is not a hexadecimal digit. -/
def hexDecode : List Char → Option (List Nat)
  | [] => some []
  | [_] => none
  | a :: b :: rest =>
    match fromHexChar a, fromHexChar b, hexDecode rest with
    | some x, some y, some r => some ((x * 16 + y) :: r)
    | _, _, _ => none

/-- The lower-case digit table of `encoding/hex`. -/
def hexDigit (n : Nat) : Char :=
  "0123456789abcdef".data.getD n '0'

/-- Go `hex.EncodeToString`. -/
def hexEncode (bs : List Nat) : String :=
  ⟨bs.flatMap fun b => [hexDigit (b / 16 % 16), hexDigit (b % 16)]⟩

/-! ## `bson.ObjectId` -/

/-- The call `bson.IsObjectIdHex`: 24 bytes that decode as hexadecimal. -/
def IsObjectIdHex (s : String) : Bool :=
  len s == 24 && (hexDecode s.data).isSome

/-- The call `bson.ObjectIdHex`: the 12 decoded bytes; `none` stands for the
panic the library raises on a string that is not a 24-digit hex id. -/
def ObjectIdHex (s : String) : Option ObjectId :=
  match hexDecode s.data with
  | some d => if d.length = 12 then some d else none
  | none => none

/-- The method `ObjectId.Hex`: the lower-case hex form of the raw bytes. -/
def Hex (id : ObjectId) : String :=
  hexEncode id

/-- What `bson.NewObjectId` reads when it is called: the clock, the machine
id, the process id and the value of the package's counter. -/
structure IdSource where
  now : Nat
  machine0 : Nat
  machine1 : Nat
  machine2 : Nat
  pid : Nat
  counter : Nat
deriving DecidableEq, Repr

/-- The call `bson.NewObjectId`: 4 bytes of Unix time, 3 of machine id, 2 of
process id and 3 of counter, big-endian. -/
def NewObjectId (e : IdSource) : ObjectId :=
  [e.now / 16777216 % 256, e.now / 65536 % 256, e.now / 256 % 256, e.now % 256,
   e.machine0 % 256, e.machine1 % 256, e.machine2 % 256,
   e.pid / 256 % 256, e.pid % 256,
   e.counter / 65536 % 256, e.counter / 256 % 256, e.counter % 256]

/-! ## BSON documents and struct mapping -/

/-- The BSON value kinds the program stores or sends: object id, string,
boolean, and UTC datetime (milliseconds). -/
inductive Value where
  | objectId (id : ObjectId)
  | string (s : String)
  | bool (b : Bool)
  | datetime (ms : Int)
deriving DecidableEq, Repr

/-- A BSON document: its fields in order. -/
abbrev Document := List (String × Value)

/-- BSON keeps a `time.Time` as whole milliseconds. -/
def Time.toMillis (t : Time) : Int :=
  t.nsec / 1000000

/-- The `time.Time` read back from a BSON datetime. -/
def Time.ofMillis (ms : Int) : Time :=
  ⟨ms * 1000000⟩

/-- Marshalling `&tm` for the store, by the bson tags of `todoModel`
(lines 32-37); `_id` is `omitempty`, so an empty id is left out. -/
def todoModel.marshal (tm : todoModel) : Document :=
  (if tm.ID = [] then [] else [("_id", Value.objectId tm.ID)]) ++
  [("title", Value.string tm.Title),
   ("completed", Value.bool tm.Completed),
   ("createdAt", Value.datetime tm.CreatedAt.toMillis)]

/-- Unmarshalling a stored document into a `todoModel`, by its bson tags; a
field whose key is absent, or holds another kind of value, keeps its zero
value. -/
def todoModel.unmarshal (d : Document) : todoModel :=
  { ID := match d.lookup "_id" with
      | some (Value.objectId i) => i
      | _ => []
    Title := match d.lookup "title" with
      | some (Value.string s) => s
      | _ => ""
    Completed := match d.lookup "completed" with
      | some (Value.bool b) => b
      | _ => false
    CreatedAt := match d.lookup "createdAt" with
      | some (Value.datetime ms) => Time.ofMillis ms
      | _ => Time.zero }

/-- Unmarshalling a stored document into a `todo` (lines 39-44).  The struct
has json tags and no bson tag, so the bson keys are the lower-cased field
names: `id`, `title`, `completed`, `createdat`.  A field whose key is absent,
or holds another kind of value, keeps its zero value.  (The driver would copy
an object id found under the key `id` into the string field as raw bytes; no
document written by this program has that key, and here the field stays
empty.) -/
def todo.unmarshal (d : Document) : todo :=
  { ID := match d.lookup "id" with
      | some (Value.string s) => s
      | _ => ""
    Title := match d.lookup "title" with
      | some (Value.string s) => s
      | _ => ""
    Completed := match d.lookup "completed" with
      | some (Value.bool b) => b
      | _ => false
    CreatedAt := match d.lookup "createdat" with
      | some (Value.datetime ms) => Time.ofMillis ms
      | _ => Time.zero }

/-! ## The document store

`mgo.Database` is a handle on a remote store.  The store is modelled by the
documents of each named collection and by the state of the connection: when
`fault` holds an error, every call on the handle returns it.  Calls return
the store afterwards together with the Go `err` result. -/

/-- The store behind a non-nil `*mgo.Database`. -/
structure Database where
  fault : Option Error
  collections : List (String × List Document)
deriving DecidableEq, Repr

/-- The handle `db.C(name)` on a non-nil database. -/
structure Collection where
  db : Database
  name : String
deriving DecidableEq, Repr

/-- The call `db.C(name)` on a non-nil database. -/
def Database.C (db : Database) (name : String) : Collection :=
  ⟨db, name⟩

/-- The documents of a collection, in the store's natural order; a collection
never written to is empty. -/
def Collection.docs (c : Collection) : List Document :=
  (c.db.collections.lookup c.name).getD []

/-- The store with the documents of one collection replaced. -/
def Collection.setDocs (c : Collection) (ds : List Document) : Database :=
  { c.db with
    collections :=
      if c.db.collections.any (fun e => e.1 == c.name) then
        c.db.collections.map (fun e => if e.1 == c.name then (e.1, ds) else e)
      else
        c.db.collections ++ [(c.name, ds)] }

/-- A document matches a selector when it holds every field of the selector
with an equal value of the same kind. -/
def matchesSelector (selector d : Document) : Bool :=
  selector.all fun kv => d.lookup kv.1 == some kv.2

/-- The driver's `mgo.ErrNotFound`. -/
def ErrNotFound : Error := "not found"

/-- The server's error for a second document with an `_id` already present. -/
def ErrDuplicateKey : Error := "E11000 duplicate key error"

/-- The server's error for a replacement that names another `_id`. -/
def ErrImmutableId : Error := "the (immutable) field _id was found to have been altered"

/-- The call `Collection.Insert(doc)`: the document is appended unless the
connection fails or its `_id` is already present in the collection.  (A
document sent without `_id` is given one by the server; `createTodo` always
sends the twelve bytes of `NewObjectId`, and here such a document is kept as
sent.) -/
def Collection.Insert (c : Collection) (doc : Document) : Database × Option Error :=
  match c.db.fault with
  | some e => (c.db, some e)
  | none =>
    match doc.lookup "_id" with
    | none => (c.setDocs (c.docs ++ [doc]), none)
    | some i =>
      if c.docs.any (fun d => d.lookup "_id" == some i) then
        (c.db, some ErrDuplicateKey)
      else
        (c.setDocs (c.docs ++ [doc]), none)

/-- The call `Collection.Find(bson.M{}).All(&result)`: every document of the
collection, or the connection's error. -/
def Collection.FindAll (c : Collection) : List Document × Option Error :=
  match c.db.fault with
  | some e => ([], some e)
  | none => (c.docs, none)

/-- The document a replacement leaves: the old `_id`, then the fields of the
update document. -/
def replaceDocument (old update : Document) : Document :=
  match old.lookup "_id" with
  | some i => ("_id", i) :: update.filter (fun kv => kv.1 != "_id")
  | none => update

/-- The first document matching the selector replaced by `f` of it. -/
def replaceFirst (selector : Document) (f : Document → Document) :
    List Document → List Document
  | [] => []
  | d :: ds =>
    if matchesSelector selector d then f d :: ds
    else d :: replaceFirst selector f ds

/-- The first document matching the selector removed. -/
def removeFirst (selector : Document) : List Document → List Document
  | [] => []
  | d :: ds =>
    if matchesSelector selector d then ds
    else d :: removeFirst selector ds

/-- The call `Collection.Update(selector, update)` with an update document
made of plain fields (no `$` operator; the value kinds here have no nested
document, so no operator document can be written).  The server takes such a
document as a replacement: the first document matching the selector keeps its
`_id` and otherwise becomes the update document.  With no match the driver
returns `ErrNotFound`. -/
def Collection.Update (c : Collection) (selector update : Document) :
    Database × Option Error :=
  match c.db.fault with
  | some e => (c.db, some e)
  | none =>
    match c.docs.find? (matchesSelector selector) with
    | none => (c.db, some ErrNotFound)
    | some old =>
      match update.lookup "_id" with
      | none => (c.setDocs (replaceFirst selector (fun d => replaceDocument d update) c.docs), none)
      | some i =>
        if old.lookup "_id" == some i then
          (c.setDocs (replaceFirst selector (fun d => replaceDocument d update) c.docs), none)
        else
          (c.db, some ErrImmutableId)

/-- The call `Collection.RemoveId(id)`, that is `Remove(bson.D{{"_id", id}})`:
the first document whose `_id` equals `id`, kind included, is removed; with no
match the driver returns `ErrNotFound`. -/
def Collection.RemoveId (c : Collection) (id : Value) : Database × Option Error :=
  match c.db.fault with
  | some e => (c.db, some e)
  | none =>
    match c.docs.find? (matchesSelector [("_id", id)]) with
    | none => (c.db, some ErrNotFound)
    | some _ => (c.setDocs (removeFirst [("_id", id)] c.docs), none)

/-- A store call issued by a handler, with its arguments. -/
inductive StoreOp where
  | insert (coll : String) (doc : Document)
  | findAll (coll : String)
  | update (coll : String) (selector update : Document)
  | removeId (coll : String) (id : Value)
deriving DecidableEq, Repr

/-- A dialled `*mgo.Session`, with its consistency mode. -/
inductive Mode where
  | Eventual
  | Monotonic
  | Strong
deriving DecidableEq, Repr

/-- The session `mgo.Dial` returns. -/
structure Session where
  host : String
  mode : Mode
deriving DecidableEq, Repr

/-- The call `sess.SetMode(mode, refresh)`. -/
def Session.SetMode (s : Session) (m : Mode) (_refresh : Bool) : Session :=
  { s with mode := m }

/-! ## Rendering -/

/-- A value placed in a `renderer.M`. -/
inductive JSONValue where
  | str (s : String)
  | err (e : Error)
  | todos (l : List todo)
deriving DecidableEq, Repr

/-- The value handed to the renderer: a `renderer.M` map or a bare error for
`rnd.JSON`, the template files for `rnd.Template`. -/
inductive Payload where
  | M (fields : List (String × JSONValue))
  | err (e : Error)
  | template (files : List String)
deriving DecidableEq, Repr

/-- One `rnd.JSON(w, status, v)` call on the response writer. -/
structure Response where
  status : Nat
  v : Payload
deriving DecidableEq, Repr

/-- The `message` entry of a rendered map. -/
def Response.message (r : Response) : Option JSONValue :=
  match r.v with
  | Payload.M fields => fields.lookup "message"
  | _ => none

/-- The renderer `renderer.New()` builds. -/
structure Render where
  mk ::
deriving DecidableEq, Repr

/-- The call `renderer.New()`. -/
def Render.New : Render := Render.mk

/-! ## Process state and handler runs -/

/-- The package globals of `todo.go` (lines 20-22); `none` is the nil
pointer. -/
structure Process where
  rnd : Option Render
  db : Option Database
deriving DecidableEq, Repr

/-- The globals before `init` runs: both nil. -/
def Process.boot : Process := ⟨none, none⟩

/-- How a run ended: it returned, it panicked on a nil pointer (or in
`bson.ObjectIdHex`), or it ended the process through `log.Fatal`. -/
inductive Outcome where
  | returned
  | panicked
  | exited
deriving DecidableEq, Repr

/-- A finished handler run: the `rnd.JSON` calls in order, the globals
afterwards, the store calls issued, and how it ended. -/
structure Result where
  w : List Response
  proc : Process
  ops : List StoreOp
  outcome : Outcome
deriving DecidableEq, Repr

/-- A request as the handlers read it: the `id` path parameter
(`chi.URLParam(req, "id")`) and what `json.NewDecoder(req.Body).Decode`
yields for the body, a decoded `todo` or the decoder's error. -/
structure Request where
  id : String
  body : Except Error todo

/-- The call `rnd.JSON(w, status, v)`: with a nil renderer the call panics,
otherwise the response is written. -/
def JSON (rnd : Option Render) (w : List Response) (status : Nat) (v : Payload) :
    Option (List Response) :=
  match rnd with
  | none => none
  | some _ => some (w ++ [⟨status, v⟩])

/-- The statement pair `rnd.JSON(w, status, v); return` that ends a handler
branch. -/
def renderReturn (p : Process) (w : List Response) (ops : List StoreOp)
    (status : Nat) (v : Payload) : Result :=
  match JSON p.rnd w status v with
  | none => ⟨w, p, ops, Outcome.panicked⟩
  | some w2 => ⟨w2, p, ops, Outcome.returned⟩

/-! ## `todo.go`: startup and handlers -/

/-- The helper `checkErr` (lines 47-51): `log.Fatal` on an error. -/
def checkErr (err : Option Error) : Outcome :=
  match err with
  | some _ => Outcome.exited
  | none => Outcome.returned

/-- What `init` leaves: the globals, the dialled session (a local of `init`),
and whether `checkErr` ended the process. -/
structure InitResult where
  proc : Process
  sess : Option Session
  outcome : Outcome
deriving DecidableEq, Repr

/-- The function `init` (lines 53-58); `dial` is `mgo.Dial`. -/
def init (p : Process) (dial : String → Except Error Session) : InitResult :=
  let p1 : Process := { p with rnd := some Render.New }
  match dial hostName with
  | Except.error err => ⟨p1, none, checkErr (some err)⟩
  | Except.ok sess => ⟨p1, some (sess.SetMode Mode.Monotonic true), checkErr none⟩

/-- The handler `homeHandler` (lines 71-74); `tpl` is the error result of
`rnd.Template`. -/
def homeHandler (p : Process) (tpl : Option Error) : Result :=
  match p.rnd with
  | none => ⟨[], p, [], Outcome.panicked⟩
  | some _ =>
    match tpl with
    | some err => ⟨[], p, [], checkErr (some err)⟩
    | none => ⟨[⟨StatusOK, Payload.template ["/static/home.tpl"]⟩], p, [], checkErr none⟩

/-- The handler `createTodo` (lines 84-120); `src` is what `bson.NewObjectId`
reads. -/
def createTodo (p : Process) (src : IdSource) (req : Request) : Result :=
  match req.body with
  | Except.error err =>
    renderReturn p [] [] StatusProcessing
      (Payload.M [("message", JSONValue.str "failed to fetch todo"),
                  ("error", JSONValue.err err)])
  | Except.ok t =>
    if validateTodoObject t == false then
      renderReturn p [] [] StatusProcessing
        (Payload.M [("message", JSONValue.str "Validation Error for TODO"),
                    ("error", JSONValue.str "")])
    else
      let tm : todoModel :=
        { ID := NewObjectId src
          Title := t.Title
          Completed := t.Completed
          CreatedAt := t.CreatedAt }
      match p.db with
      | none => ⟨[], p, [], Outcome.panicked⟩
      | some db =>
        match (db.C collectionName).Insert tm.marshal with
        | (db2, some err) =>
          renderReturn ⟨p.rnd, some db2⟩ [] [StoreOp.insert collectionName tm.marshal]
            StatusProcessing
            (Payload.M [("message", JSONValue.str "Validation Error for TODO"),
                        ("error", JSONValue.err err)])
        | (db2, none) =>
          renderReturn ⟨p.rnd, some db2⟩ [] [StoreOp.insert collectionName tm.marshal]
            StatusCreated
            (Payload.M [("message", JSONValue.str "todo created successfully"),
                        ("todo_id", JSONValue.str (Hex tm.ID))])

/-- The handler `updateTodo` (lines 122-177). -/
def updateTodo (p : Process) (req : Request) : Result :=
  let id := TrimSpace req.id
  if !IsObjectIdHex id then
    renderReturn p [] [] StatusBadRequest
      (Payload.M [("message", JSONValue.str "Invalid todo id"),
                  ("error", JSONValue.str "Object Id not present")])
  else
    match req.body with
    | Except.error err => renderReturn p [] [] StatusProcessing (Payload.err err)
    | Except.ok tempTodo =>
      if validateTodoObject tempTodo == false then
        renderReturn p [] [] StatusBadRequest
          (Payload.M [("message", JSONValue.str "Invalid todo id"),
                      ("error", JSONValue.str "validation failed")])
      else
        match p.db with
        | none => ⟨[], p, [], Outcome.panicked⟩
        | some db =>
          match ObjectIdHex id with
          | none => ⟨[], p, [], Outcome.panicked⟩
          | some oid =>
            let selector : Document := [("_id", Value.objectId oid)]
            let update : Document := [("title", Value.string tempTodo.Title)]
            match (db.C collectionName).Update selector update with
            | (db2, some err) =>
              renderReturn ⟨p.rnd, some db2⟩ []
                [StoreOp.update collectionName selector update] StatusBadRequest
                (Payload.M [("message", JSONValue.str "Failed to update todo"),
                            ("error", JSONValue.err err)])
            | (db2, none) =>
              ⟨[], ⟨p.rnd, some db2⟩, [StoreOp.update collectionName selector update],
                Outcome.returned⟩

/-- The handler `deleteTodo` (lines 179-198).  `RemoveId` is handed `id`, the
trimmed path parameter, which is a Go string. -/
def deleteTodo (p : Process) (req : Request) : Result :=
  let id := TrimSpace req.id
  if !IsObjectIdHex id then
    renderReturn p [] [] StatusBadRequest
      (Payload.M [("message", JSONValue.str "Invalid todo id"),
                  ("error", JSONValue.str "Object Id not present")])
  else
    match p.db with
    | none => ⟨[], p, [], Outcome.panicked⟩
    | some db =>
      match (db.C collectionName).RemoveId (Value.string id) with
      | (db2, some err) =>
        match JSON p.rnd [] StatusProcessing
            (Payload.M [("message", JSONValue.str "Failed to delete todo"),
                        ("error", JSONValue.err err)]) with
        | none =>
          ⟨[], ⟨p.rnd, some db2⟩, [StoreOp.removeId collectionName (Value.string id)],
            Outcome.panicked⟩
        | some w =>
          renderReturn ⟨p.rnd, some db2⟩ w
            [StoreOp.removeId collectionName (Value.string id)] StatusOK
            (Payload.M [("message", JSONValue.str "todo deleted successfully")])
      | (db2, none) =>
        renderReturn ⟨p.rnd, some db2⟩ []
          [StoreOp.removeId collectionName (Value.string id)] StatusOK
          (Payload.M [("message", JSONValue.str "todo deleted successfully")])

/-- The handler `fetchTodos` (lines 200-222).  The query result is decoded
into `[]todo` (line 201), and each entry's id is `t.ID.Hex()` (line 213).
`t.ID` is the `string` field of `todo`; `Hex` is the method of
`bson.ObjectId`, itself a string type, so the call is read as the hex form of
the bytes of `t.ID`. -/
def fetchTodos (p : Process) (_req : Request) : Result :=
  match p.db with
  | none => ⟨[], p, [], Outcome.panicked⟩
  | some db =>
    match (db.C collectionName).FindAll with
    | (_, some err) =>
      renderReturn p [] [StoreOp.findAll collectionName] StatusProcessing
        (Payload.M [("message", JSONValue.str "Failed to fetch todo"),
                    ("error", JSONValue.err err)])
    | (docs, none) =>
      let todos : List todo := docs.map todo.unmarshal
      let todoList : List todo := todos.map fun t =>
        { ID := Hex (bytes t.ID)
          Title := t.Title
          Completed := t.Completed
          CreatedAt := t.CreatedAt }
      renderReturn p [] [StoreOp.findAll collectionName] StatusOK
        (Payload.M [("data", JSONValue.todos todoList)])

/-- The four routes `todoHandler` registers (lines 63-66): `GET /`,
`POST /`, `PUT /{id}`, `DELETE /{id}`. -/
inductive TodoRoute where
  | get
  | post
  | put
  | delete
deriving DecidableEq, Repr

/-- The router `todoHandler` builds (lines 60-69): the handler registered
for the route is run. -/
def todoHandler (p : Process) (route : TodoRoute) (src : IdSource) (req : Request) :
    Result :=
  match route with
  | TodoRoute.get => fetchTodos p req
  | TodoRoute.post => createTodo p src req
  | TodoRoute.put => updateTodo p req
  | TodoRoute.delete => deleteTodo p req

/-- The routes `main` registers (lines 229-230): `/` for the home page, and
the todo router mounted under `/todo`. -/
inductive Route where
  | home
  | todo (route : TodoRoute)
deriving DecidableEq, Repr

/-- One served request: its route, the request, and the values the handler
reads from its surroundings. -/
structure Call where
  route : Route
  req : Request
  src : IdSource
  tpl : Option Error

/-- The router of `main`: one request served. -/
def serve (p : Process) (c : Call) : Result :=
  match c.route with
  | Route.home => homeHandler p c.tpl
  | Route.todo route => todoHandler p route c.src c.req

/-- The process states after startup: `init` has run on the boot globals
without ending the process, and then any number of requests were served (a
panicking handler is recovered by the server; `log.Fatal` ends the run). -/
inductive Reachable : Process → Prop where
  | start (dial : String → Except Error Session) :
      (init Process.boot dial).outcome = Outcome.returned →
      Reachable (init Process.boot dial).proc
  | step (p : Process) (c : Call) :
      Reachable p → (serve p c).outcome ≠ Outcome.exited →
      Reachable (serve p c).proc

/-! ## Sample values

A store built by one `createTodo` call, used to run the handlers on. -/

/-- A process after startup whose store handle is set and whose store is
empty. -/
def emptyProcess : Process :=
  ⟨some Render.New, some ⟨none, []⟩⟩

/-- The clock (2024-01-01T00:00:00Z), machine id, process id and counter read
by one `bson.NewObjectId` call. -/
def milkSource : IdSource :=
  ⟨1704067200, 0xaa, 0xbb, 0xcc, 8080, 1⟩

/-- A decoded request body; the client also sent an `id`. -/
def milkPayload : todo :=
  ⟨"client-id", "buy milk", true, ⟨1704067200000000000⟩⟩

/-- The hex form of `NewObjectId milkSource`. -/
def milkHex : String :=
  "65920080aabbcc1f90000001"

/-- The document `createTodo` stores for `milkPayload`. -/
def milkDocument : Document :=
  [("_id", Value.objectId [0x65, 0x92, 0x00, 0x80, 0xaa, 0xbb, 0xcc, 0x1f, 0x90, 0, 0, 1]),
   ("title", Value.string "buy milk"),
   ("completed", Value.bool true),
   ("createdAt", Value.datetime 1704067200000)]

/-- The store after that `createTodo` call. -/
def milkStore : Database :=
  ⟨none, [("todo", [milkDocument])]⟩

/-- The process after that `createTodo` call. -/
def milkProcess : Process :=
  ⟨some Render.New, some milkStore⟩

/-- A second stored record, not completed. -/
def teaDocument : Document :=
  [("_id", Value.objectId [0x65, 0x92, 0x00, 0x81, 0xaa, 0xbb, 0xcc, 0x1f, 0x90, 0, 0, 2]),
   ("title", Value.string "buy tea"),
   ("completed", Value.bool false),
   ("createdAt", Value.datetime 1704067201000)]

/-- A store holding both records. -/
def pantryStore : Database :=
  ⟨none, [("todo", [milkDocument, teaDocument])]⟩

/-- A store whose one record is keyed by a string, not an object id. -/
def stringKeyedStore : Database :=
  ⟨none, [("todo", [[("_id", Value.string milkHex), ("title", Value.string "buy milk")]])]⟩

/-- A dial that succeeds, with the driver's default mode. -/
def standardDial : String → Except Error Session :=
  fun host => Except.ok ⟨host, Mode.Strong⟩

end GoCrud

/-! ## Supporting lemmas -/

namespace GoCrud

/-- With a renderer set, `renderReturn` appends the response and returns. -/
theorem renderReturn_of_rnd (p : Process) (r : Render) (w : List Response)
    (ops : List StoreOp) (status : Nat) (v : Payload) (hr : p.rnd = some r) :
    renderReturn p w ops status v = ⟨w ++ [⟨status, v⟩], p, ops, Outcome.returned⟩ := by
  simp [renderReturn, JSON, hr]

/-- A hexadecimal digit is an ASCII character. -/
theorem fromHexChar_lt (c : Char) (x : Nat) (h : fromHexChar c = some x) : c.toNat < 128 := by
  unfold fromHexChar at h
  simp only at h
  split_ifs at h with h1 h2 h3 <;> omega

/-- A string that decodes as hex has two ASCII characters per decoded byte. -/
theorem hexDecode_length : ∀ (cs : List Char) (d : List Nat), hexDecode cs = some d →
    cs.length = 2 * d.length ∧ ∀ c ∈ cs, c.toNat < 128
  | [], d, h => by
    simp [hexDecode] at h
    subst h
    simp
  | [_], d, h => by simp [hexDecode] at h
  | a :: b :: rest, d, h => by
    unfold hexDecode at h
    cases ha : fromHexChar a with
    | none => simp [ha] at h
    | some x =>
      cases hb : fromHexChar b with
      | none => simp [ha, hb] at h
      | some y =>
        cases hr : hexDecode rest with
        | none => simp [ha, hb, hr] at h
        | some r =>
          simp [ha, hb, hr] at h
          subst h
          have ih := hexDecode_length rest r hr
          refine ⟨by simp [ih.1]; omega, ?_⟩
          intro c hc
          simp at hc
          rcases hc with rfl | rfl | hc
          · exact fromHexChar_lt _ _ ha
          · exact fromHexChar_lt _ _ hb
          · exact ih.2 c hc

/-- An ASCII string has one byte per character. -/
theorem bytes_length_ascii : ∀ (cs : List Char), (∀ c ∈ cs, c.toNat < 128) →
    (cs.flatMap utf8Encode).length = cs.length
  | [], _ => by simp
  | c :: cs, h => by
    have hc : c.toNat < 128 := h c (by simp)
    have ih := bytes_length_ascii cs (fun x hx => h x (by simp [hx]))
    simp [List.flatMap_cons, utf8Encode, hc, ih]

/-- A string accepted by `IsObjectIdHex` is decoded by `ObjectIdHex` into twelve bytes, so the guarded call does not panic. -/
theorem ObjectIdHex_of_IsObjectIdHex (s : String) (h : IsObjectIdHex s = true) :
    ∃ oid, ObjectIdHex s = some oid ∧ oid.length = 12 := by
  unfold IsObjectIdHex at h
  simp only [Bool.and_eq_true, beq_iff_eq] at h
  obtain ⟨hlen, hsome⟩ := h
  cases hd : hexDecode s.data with
  | none => simp [hd] at hsome
  | some d =>
    have hl := hexDecode_length s.data d hd
    have hb := bytes_length_ascii s.data hl.2
    have : d.length = 12 := by
      unfold len bytes at hlen
      omega
    exact ⟨d, by simp [ObjectIdHex, hd, this], this⟩

/-- Rendering leaves the globals alone. -/
theorem renderReturn_proc (p : Process) (w : List Response) (ops : List StoreOp)
    (status : Nat) (v : Payload) : (renderReturn p w ops status v).proc = p := by
  unfold renderReturn
  split <;> rfl

/-- The home handler leaves the globals alone. -/
theorem homeHandler_proc (p : Process) (tpl : Option Error) : (homeHandler p tpl).proc = p := by
  unfold homeHandler
  split
  · rfl
  · split <;> rfl

/-- With a nil store handle `createTodo` leaves the globals as they are. -/
theorem createTodo_proc_of_nil (p : Process) (src : IdSource) (req : Request)
    (h : p.db = none) : (createTodo p src req).proc = p := by
  unfold createTodo
  split
  · exact renderReturn_proc _ _ _ _ _
  · split
    · exact renderReturn_proc _ _ _ _ _
    · simp [h]

/-- With a nil store handle `updateTodo` leaves the globals as they are. -/
theorem updateTodo_proc_of_nil (p : Process) (req : Request)
    (h : p.db = none) : (updateTodo p req).proc = p := by
  unfold updateTodo
  simp only
  split
  · exact renderReturn_proc _ _ _ _ _
  · split
    · exact renderReturn_proc _ _ _ _ _
    · split
      · exact renderReturn_proc _ _ _ _ _
      · simp [h]

/-- With a nil store handle `deleteTodo` leaves the globals as they are. -/
theorem deleteTodo_proc_of_nil (p : Process) (req : Request)
    (h : p.db = none) : (deleteTodo p req).proc = p := by
  unfold deleteTodo
  simp only
  split
  · exact renderReturn_proc _ _ _ _ _
  · simp [h]

/-- With a nil store handle `fetchTodos` leaves the globals as they are. -/
theorem fetchTodos_proc_of_nil (p : Process) (req : Request)
    (h : p.db = none) : (fetchTodos p req).proc = p := by
  unfold fetchTodos
  simp [h]

/-- With a nil store handle no served request changes the globals. -/
theorem serve_proc_of_nil (p : Process) (c : Call) (h : p.db = none) :
    (serve p c).proc = p := by
  unfold serve
  cases c.route with
  | home => exact homeHandler_proc _ _
  | todo route =>
    unfold todoHandler
    cases route
    · exact fetchTodos_proc_of_nil _ _ h
    · exact createTodo_proc_of_nil _ _ _ h
    · exact updateTodo_proc_of_nil _ _ h
    · exact deleteTodo_proc_of_nil _ _ h

/-- The globals `init` leaves: the new renderer, and `db` as it was. -/
theorem init_db (q : Process) (dial : String → Except Error Session) :
    (init q dial).proc = ⟨some Render.New, q.db⟩ := by
  unfold init
  split <;> rfl

/-- Every state reachable after startup has the renderer set and a nil store handle. -/
theorem reachable_db_nil (p : Process) (h : Reachable p) :
    p.rnd = some Render.New ∧ p.db = none := by
  induction h with
  | start dial _ => rw [init_db]; exact ⟨rfl, rfl⟩
  | step p c _ _ ih => rw [serve_proc_of_nil p c ih.2]; exact ih

/-- No handler assigns either global: the renderer is the same after a request, and the store handle is nil after it exactly when it was nil before. -/
theorem serve_keeps_handles (q : Process) (c : Call) :
    (serve q c).proc.rnd = q.rnd ∧ ((serve q c).proc.db = none ↔ q.db = none) := by
  by_cases hq : q.db = none
  · rw [serve_proc_of_nil q c hq]
    simp
  · obtain ⟨db, hdb⟩ := Option.ne_none_iff_exists'.mp hq
    unfold serve
    cases c.route with
    | home => rw [homeHandler_proc]; simp [hq]
    | todo route =>
      cases route
      · simp only [todoHandler, fetchTodos, hdb]
        split <;> simp [renderReturn_proc, hq]
      · simp only [todoHandler, createTodo]
        split
        · simp [renderReturn_proc, hq]
        · split
          · simp [renderReturn_proc, hq]
          · simp only [hdb]
            split <;> simp [renderReturn_proc, hq]
      · simp only [todoHandler, updateTodo]
        split
        · simp [renderReturn_proc, hq]
        · split
          · simp [renderReturn_proc, hq]
          · split
            · simp [renderReturn_proc, hq]
            · simp only [hdb]
              split
              · simp [hq]
              · split <;> simp [renderReturn_proc, hq]
      · simp only [todoHandler, deleteTodo]
        split
        · simp [renderReturn_proc, hq]
        · simp only [hdb]
          split
          · split <;> simp [renderReturn_proc, hq]
          · simp [renderReturn_proc, hq]

/-- The hex form of the empty string is empty. -/
theorem Hex_bytes_empty : Hex (bytes "") = "" := by
  decide

/-- Decoding into `todo` a document marshalled from a `todoModel` keeps title and completed and loses the id and the creation time. -/
theorem todo_unmarshal_marshal (tm : todoModel) :
    todo.unmarshal tm.marshal = ⟨"", tm.Title, tm.Completed, Time.zero⟩ := by
  unfold todoModel.marshal todo.unmarshal
  by_cases h : tm.ID = []
  · simp [h, List.lookup]
  · simp [h, List.lookup]

/-- Replacing a stored document by a title-only update document leaves `_id` and `title`; read back, the record is not completed and has the zero creation time. -/
theorem todoModel_unmarshal_replaced (d : Document) (i : Value) (title : String)
    (h : d.lookup "_id" = some i) :
    replaceDocument d [("title", Value.string title)] =
      [("_id", i), ("title", Value.string title)] ∧
    (todoModel.unmarshal (replaceDocument d [("title", Value.string title)])).Completed = false ∧
    (todoModel.unmarshal (replaceDocument d [("title", Value.string title)])).CreatedAt =
      Time.zero := by
  have h1 : replaceDocument d [("title", Value.string title)] =
      [("_id", i), ("title", Value.string title)] := by
    simp [replaceDocument, h]
  rw [h1]
  simp [todoModel.unmarshal, List.lookup]

/-- A string selector on `_id` finds nothing among documents none of which has that string as `_id`. -/
theorem find_string_id_none (s : String) : ∀ (docs : List Document),
    (∀ d ∈ docs, d.lookup "_id" ≠ some (Value.string s)) →
    docs.find? (matchesSelector [("_id", Value.string s)]) = none
  | [], _ => rfl
  | d :: ds, h => by
    have hd : d.lookup "_id" ≠ some (Value.string s) := h d (by simp)
    have ih := find_string_id_none s ds (fun x hx => h x (by simp [hx]))
    have hb : (d.lookup "_id" == some (Value.string s)) = false := by
      simpa using hd
    simp [List.find?, matchesSelector, hb, ih]

/-- When no document of the collection is keyed by the id string itself (every document `createTodo` writes is keyed by an object id), `deleteTodo` with a well-formed id removes nothing: it renders 102 then 200 and leaves the store as it was. -/
theorem deleteTodo_store_unchanged (p : Process) (r : Render) (db : Database) (req : Request)
    (hr : p.rnd = some r) (hdb : p.db = some db) (hf : db.fault = none)
    (hid : IsObjectIdHex (TrimSpace req.id) = true)
    (hk : ∀ d ∈ (db.C collectionName).docs,
      d.lookup "_id" ≠ some (Value.string (TrimSpace req.id))) :
    deleteTodo p req =
      ⟨[⟨102, Payload.M [("message", JSONValue.str "Failed to delete todo"),
                         ("error", JSONValue.err ErrNotFound)]⟩,
        ⟨200, Payload.M [("message", JSONValue.str "todo deleted successfully")]⟩],
       p, [StoreOp.removeId collectionName (Value.string (TrimSpace req.id))],
       Outcome.returned⟩ := by
  have hrem : (db.C collectionName).RemoveId (Value.string (TrimSpace req.id)) =
      (db, some ErrNotFound) := by
    unfold Collection.RemoveId
    have hdbc : (db.C collectionName).db = db := rfl
    rw [hdbc, hf]
    simp [find_string_id_none _ _ hk]
  cases p with
  | mk rnd pdb =>
    simp only at hr hdb
    subst hr hdb
    simp [deleteTodo, hid, hrem, renderReturn, JSON, StatusOK, StatusProcessing]

/-- Looking up a collection after its entry was replaced. -/
theorem lookup_map_replace (name : String) (ds : List Document) :
    ∀ (cs : List (String × List Document)), cs.any (fun e => e.1 == name) = true →
      (cs.map (fun e => if e.1 == name then (e.1, ds) else e)).lookup name = some ds
  | [], h => by simp at h
  | (k, v) :: cs, h => by
    rw [List.map_cons]
    by_cases hk : (k == name) = true
    · have hn : (name == k) = true := by
        rw [beq_iff_eq] at hk ⊢
        exact hk.symm
      rw [if_pos hk]
      simp only [List.lookup, hn]
    · have hn : (name == k) = false := by
        rw [Bool.not_eq_true] at hk
        rw [beq_eq_false_iff_ne] at hk ⊢
        exact fun h2 => hk h2.symm
      have h2 : cs.any (fun e => e.1 == name) = true := by
        rw [List.any_cons, Bool.or_eq_true] at h
        rcases h with h | h
        · exact absurd h hk
        · exact h
      rw [if_neg hk]
      simp only [List.lookup, hn]
      exact lookup_map_replace name ds cs h2

/-- Looking up a collection after its entry was added. -/
theorem lookup_append_new (name : String) (ds : List Document) :
    ∀ (cs : List (String × List Document)), cs.any (fun e => e.1 == name) = false →
      (cs ++ [(name, ds)]).lookup name = some ds
  | [], _ => by simp [List.lookup]
  | (k, v) :: cs, h => by
    rw [List.any_cons, Bool.or_eq_false_iff] at h
    have hn : (name == k) = false := by
      have h1 := h.1
      rw [beq_eq_false_iff_ne] at h1 ⊢
      exact fun h2 => h1 h2.symm
    rw [List.cons_append]
    simp only [List.lookup, hn]
    exact lookup_append_new name ds cs h.2

/-- The documents of a collection after `setDocs` are the ones set. -/
theorem docs_setDocs (c : Collection) (ds : List Document) :
    ((c.setDocs ds).C c.name).docs = ds := by
  unfold Collection.docs Collection.setDocs Database.C
  simp only
  by_cases h : c.db.collections.any (fun e => e.1 == c.name) = true
  · rw [if_pos h, lookup_map_replace c.name ds _ h]
    rfl
  · have h2 : c.db.collections.any (fun e => e.1 == c.name) = false := by
      rw [Bool.not_eq_true] at h
      exact h
    rw [if_neg h, lookup_append_new c.name ds _ h2]
    rfl

/-- A generated object id is never empty. -/
theorem NewObjectId_ne_nil (src : IdSource) : NewObjectId src ≠ [] := by
  simp [NewObjectId]

/-- When the insert succeeds, `createTodo` answers 201 with the hex form of the generated id, that id was not the `_id` of any document already in the collection, and the collection gains the marshalled record at its end. -/
theorem createTodo_created (p : Process) (r : Render) (db db2 : Database) (src : IdSource)
    (id : String) (t : todo)
    (hr : p.rnd = some r) (hdb : p.db = some db) (hv : validateTodoObject t = true)
    (hins : (db.C collectionName).Insert
      (todoModel.marshal ⟨NewObjectId src, t.Title, t.Completed, t.CreatedAt⟩) = (db2, none)) :
    createTodo p src ⟨id, Except.ok t⟩ =
      ⟨[⟨201, Payload.M [("message", JSONValue.str "todo created successfully"),
                         ("todo_id", JSONValue.str (Hex (NewObjectId src)))]⟩],
        ⟨p.rnd, some db2⟩,
        [StoreOp.insert collectionName
          (todoModel.marshal ⟨NewObjectId src, t.Title, t.Completed, t.CreatedAt⟩)],
        Outcome.returned⟩ ∧
    (∀ d ∈ (db.C collectionName).docs,
      d.lookup "_id" ≠ some (Value.objectId (NewObjectId src))) ∧
    (db2.C collectionName).docs = (db.C collectionName).docs ++
      [todoModel.marshal ⟨NewObjectId src, t.Title, t.Completed, t.CreatedAt⟩] := by
  refine ⟨?_, ?_⟩
  · simp [createTodo, hv, hdb, hins, renderReturn, JSON, hr, StatusCreated]
  · have hl : (todoModel.marshal ⟨NewObjectId src, t.Title, t.Completed, t.CreatedAt⟩).lookup "_id"
        = some (Value.objectId (NewObjectId src)) := by
      simp [todoModel.marshal, NewObjectId_ne_nil, List.lookup]
    unfold Collection.Insert at hins
    rw [hl] at hins
    cases hf : (db.C collectionName).db.fault with
    | some e => simp [hf] at hins
    | none =>
      simp only [hf] at hins
      split_ifs at hins with hany
      · simp at hins
      · simp only [Prod.mk.injEq, and_true] at hins
        constructor
        · intro d hd heq
          apply hany
          rw [List.any_eq_true]
          exact ⟨d, hd, by simp [heq]⟩
        · rw [← hins]
          exact docs_setDocs (db.C collectionName) _

/-- On a store whose documents are marshalled `todoModel` records, `fetchTodos` lists one entry per record, in order, with the title and completed value, an empty identifier and the zero creation time. -/
theorem fetchTodos_of_created_records (p : Process) (r : Render) (db : Database)
    (req : Request) (tms : List todoModel)
    (hr : p.rnd = some r) (hdb : p.db = some db) (hf : db.fault = none)
    (hdocs : (db.C collectionName).docs = tms.map todoModel.marshal) :
    fetchTodos p req =
      ⟨[⟨200, Payload.M [("data", JSONValue.todos
          (tms.map fun tm => ⟨"", tm.Title, tm.Completed, Time.zero⟩))]⟩],
        p, [StoreOp.findAll collectionName], Outcome.returned⟩ := by
  have hfind : (db.C collectionName).FindAll = (tms.map todoModel.marshal, none) := by
    unfold Collection.FindAll
    have hdbc : (db.C collectionName).db = db := rfl
    rw [hdbc, hf, hdocs]
  simp [fetchTodos, hdb, hfind, renderReturn, JSON, hr, StatusOK, todo_unmarshal_marshal,
    Hex_bytes_empty, Function.comp_def]

/-- The success branch of `deleteTodo`: a record keyed by the hex string
itself is removed, and 200 is the only response. -/
theorem deleteTodo_removes_string_keyed_record :
    deleteTodo ⟨some Render.New, some stringKeyedStore⟩ ⟨milkHex, Except.error "EOF"⟩ =
      ⟨[⟨200, Payload.M [("message", JSONValue.str "todo deleted successfully")]⟩],
        ⟨some Render.New, some ⟨none, [("todo", [])]⟩⟩,
        [StoreOp.removeId "todo" (Value.string milkHex)], Outcome.returned⟩ := by
  decide

/-- The store-error branch of `updateTodo`: a well-formed id that no stored
record has yields 400 "Failed to update todo" and leaves the store as it
was. -/
theorem updateTodo_unknown_id_not_found :
    updateTodo milkProcess
        ⟨"65920081aabbcc1f90000002", Except.ok ⟨"", "buy bread", false, Time.zero⟩⟩ =
      ⟨[⟨400, Payload.M [("message", JSONValue.str "Failed to update todo"),
                         ("error", JSONValue.err "not found")]⟩],
        milkProcess,
        [StoreOp.update "todo"
          [("_id", Value.objectId
            [0x65, 0x92, 0x00, 0x81, 0xaa, 0xbb, 0xcc, 0x1f, 0x90, 0, 0, 2])]
          [("title", Value.string "buy bread")]],
        Outcome.returned⟩ := by
  decide

/-- An update on the two-record store replaces the selected record and leaves
the other one as it was. -/
theorem updateTodo_other_record_kept :
    (updateTodo ⟨some Render.New, some pantryStore⟩
        ⟨"65920081aabbcc1f90000002", Except.ok ⟨"", "buy bread", true, Time.zero⟩⟩).proc =
      ⟨some Render.New, some ⟨none, [("todo",
        [milkDocument,
         [("_id", Value.objectId
            [0x65, 0x92, 0x00, 0x81, 0xaa, 0xbb, 0xcc, 0x1f, 0x90, 0, 0, 2]),
          ("title", Value.string "buy bread")]])]⟩⟩ := by
  decide

end GoCrud

/-! ## The claims -/

namespace GoCrud

/-- C1: `validateTodoObject` returns false exactly when the title is the
one-character string of a single space; it returns true for the empty title;
and its result is the same for any two payloads with the same title, whatever
their id, completed and createdAt fields. -/
theorem validateTodoObject_iff_single_space :
    (∀ t : todo, validateTodoObject t = false ↔ t.Title = " ") ∧
    (∀ (id : String) (c : Bool) (created : Time),
      validateTodoObject ⟨id, "", c, created⟩ = true) ∧
    (∀ (title id id2 : String) (c c2 : Bool) (t1 t2 : Time),
      validateTodoObject ⟨id, title, c, t1⟩ = validateTodoObject ⟨id2, title, c2, t2⟩) := by
  refine ⟨?_, ?_, ?_⟩
  · intro t
    unfold validateTodoObject
    by_cases h : t.Title = " " <;> simp [h]
  · intro id c created
    unfold validateTodoObject
    simp
  · intro title id id2 c c2 t1 t2
    rfl

/-- C2 (the code departs from the claim): on the store holding the record
`createTodo` wrote for "buy milk" (completed, created 2024-01-01), `updateTodo`
with that record's hex id and a valid payload titled "buy bread" succeeds and
leaves a stored document made of `_id` and `title` only, whether the payload
says completed or not; read back as a `todoModel` the record is not completed
and has the zero creation time, whereas before the update it was completed
and carried its creation time. -/
theorem updateTodo_replaces_whole_record :
    updateTodo milkProcess ⟨milkHex, Except.ok ⟨"", "buy bread", false, Time.zero⟩⟩ =
      ⟨[],
        ⟨some Render.New, some ⟨none, [("todo",
          [[("_id", Value.objectId
              [0x65, 0x92, 0x00, 0x80, 0xaa, 0xbb, 0xcc, 0x1f, 0x90, 0, 0, 1]),
            ("title", Value.string "buy bread")]])]⟩⟩,
        [StoreOp.update "todo"
          [("_id", Value.objectId
            [0x65, 0x92, 0x00, 0x80, 0xaa, 0xbb, 0xcc, 0x1f, 0x90, 0, 0, 1])]
          [("title", Value.string "buy bread")]],
        Outcome.returned⟩ ∧
    (updateTodo milkProcess ⟨milkHex, Except.ok ⟨"", "buy bread", true, Time.zero⟩⟩).proc =
      (updateTodo milkProcess ⟨milkHex, Except.ok ⟨"", "buy bread", false, Time.zero⟩⟩).proc ∧
    todoModel.unmarshal milkDocument =
      ⟨[0x65, 0x92, 0x00, 0x80, 0xaa, 0xbb, 0xcc, 0x1f, 0x90, 0, 0, 1], "buy milk", true,
        ⟨1704067200000000000⟩⟩ ∧
    todoModel.unmarshal
        [("_id", Value.objectId
            [0x65, 0x92, 0x00, 0x80, 0xaa, 0xbb, 0xcc, 0x1f, 0x90, 0, 0, 1]),
         ("title", Value.string "buy bread")] =
      ⟨[0x65, 0x92, 0x00, 0x80, 0xaa, 0xbb, 0xcc, 0x1f, 0x90, 0, 0, 1], "buy bread", false,
        Time.zero⟩ := by
  decide

/-- C3 (the code departs from the claim): `createTodo` on the empty store
writes the "buy milk" record under an object-id key and answers with its hex
id; `deleteTodo` with that hex id hands `RemoveId` the string, finds nothing,
renders 102 "Failed to delete todo" and then 200, and leaves the store as it
was: the record is still stored and `fetchTodos` lists what it listed
before. -/
theorem deleteTodo_leaves_record_in_store :
    (createTodo emptyProcess milkSource ⟨"", Except.ok milkPayload⟩).proc = milkProcess ∧
    Hex (todoModel.unmarshal milkDocument).ID = milkHex ∧
    deleteTodo milkProcess ⟨milkHex, Except.error "EOF"⟩ =
      ⟨[⟨102, Payload.M [("message", JSONValue.str "Failed to delete todo"),
                         ("error", JSONValue.err "not found")]⟩,
        ⟨200, Payload.M [("message", JSONValue.str "todo deleted successfully")]⟩],
       milkProcess, [StoreOp.removeId "todo" (Value.string milkHex)], Outcome.returned⟩ ∧
    milkDocument ∈ (milkStore.C collectionName).docs ∧
    fetchTodos (deleteTodo milkProcess ⟨milkHex, Except.error "EOF"⟩).proc
        ⟨"", Except.error "EOF"⟩ =
      fetchTodos milkProcess ⟨"", Except.error "EOF"⟩ ∧
    (fetchTodos milkProcess ⟨"", Except.error "EOF"⟩).w =
      [⟨200, Payload.M [("data", JSONValue.todos [⟨"", "buy milk", true, Time.zero⟩])]⟩] := by
  decide

/-- C4: when the trimmed `id` path parameter is not a well-formed object-id
hex string, `updateTodo` and `deleteTodo` each render exactly one response,
status 400 with message "Invalid todo id", whatever the body (decoded or
not) and whatever the store handle; they issue no store call and leave the
process state, the store included, as it was. -/
theorem malformed_id_is_rejected (r : Render) (handle : Option Database) (id : String)
    (body : Except Error todo)
    (hid : IsObjectIdHex (TrimSpace id) = false) :
    updateTodo ⟨some r, handle⟩ ⟨id, body⟩ =
      ⟨[⟨400, Payload.M [("message", JSONValue.str "Invalid todo id"),
                         ("error", JSONValue.str "Object Id not present")]⟩],
        ⟨some r, handle⟩, [], Outcome.returned⟩ ∧
    deleteTodo ⟨some r, handle⟩ ⟨id, body⟩ =
      ⟨[⟨400, Payload.M [("message", JSONValue.str "Invalid todo id"),
                         ("error", JSONValue.str "Object Id not present")]⟩],
        ⟨some r, handle⟩, [], Outcome.returned⟩ := by
  constructor
  · simp [updateTodo, hid, renderReturn, JSON, StatusBadRequest]
  · simp [deleteTodo, hid, renderReturn, JSON, StatusBadRequest]

/-- C4 at a concrete request: the id " 12xyz " on the store holding the "buy
milk" record, with an undecodable body. -/
theorem malformed_id_is_rejected_witness :
    IsObjectIdHex (TrimSpace " 12xyz ") = false ∧
    (updateTodo ⟨some Render.New, some milkStore⟩ ⟨" 12xyz ", Except.error "EOF"⟩ =
      ⟨[⟨400, Payload.M [("message", JSONValue.str "Invalid todo id"),
                         ("error", JSONValue.str "Object Id not present")]⟩],
        ⟨some Render.New, some milkStore⟩, [], Outcome.returned⟩ ∧
    deleteTodo ⟨some Render.New, some milkStore⟩ ⟨" 12xyz ", Except.error "EOF"⟩ =
      ⟨[⟨400, Payload.M [("message", JSONValue.str "Invalid todo id"),
                         ("error", JSONValue.str "Object Id not present")]⟩],
        ⟨some Render.New, some milkStore⟩, [], Outcome.returned⟩) :=
  ⟨by decide,
   malformed_id_is_rejected Render.New (some milkStore) " 12xyz " (Except.error "EOF")
     (by decide)⟩

/-- C5 (the code departs from the claim): `createTodo` on the empty store with
the valid "buy milk" payload inserts the record and answers 201 with the hex
form of the generated id (not the id the client sent); the following
`fetchTodos` lists the record with its title and completed value but with an
empty identifier, so no listed entry carries the id that was returned. -/
theorem createTodo_then_fetchTodos_loses_id :
    validateTodoObject milkPayload = true ∧
    Hex (NewObjectId milkSource) = milkHex ∧
    createTodo emptyProcess milkSource ⟨"", Except.ok milkPayload⟩ =
      ⟨[⟨201, Payload.M [("message", JSONValue.str "todo created successfully"),
                         ("todo_id", JSONValue.str milkHex)]⟩],
        milkProcess, [StoreOp.insert "todo" milkDocument], Outcome.returned⟩ ∧
    fetchTodos (createTodo emptyProcess milkSource ⟨"", Except.ok milkPayload⟩).proc
        ⟨"", Except.error "EOF"⟩ =
      ⟨[⟨200, Payload.M [("data", JSONValue.todos [⟨"", "buy milk", true, Time.zero⟩])]⟩],
        milkProcess, [StoreOp.findAll "todo"], Outcome.returned⟩ ∧
    ¬ (∃ e ∈ [(⟨"", "buy milk", true, Time.zero⟩ : todo)], e.ID = milkHex) := by
  decide

/-- C6: when the body of a `createTodo` request does not decode, or decodes
to a payload that `validateTodoObject` rejects, the handler renders exactly
one response, status 102 with an error envelope (never 201), issues no store
call and leaves the process state, the store included, as it was; the decode
failure carries the message "failed to fetch todo", the validation failure
"Validation Error for TODO". -/
theorem createTodo_rejects_without_insert (r : Render) (handle : Option Database)
    (src : IdSource) (id : String) (err : Error) (t : todo)
    (hv : validateTodoObject t = false) :
    createTodo ⟨some r, handle⟩ src ⟨id, Except.error err⟩ =
      ⟨[⟨102, Payload.M [("message", JSONValue.str "failed to fetch todo"),
                         ("error", JSONValue.err err)]⟩],
        ⟨some r, handle⟩, [], Outcome.returned⟩ ∧
    createTodo ⟨some r, handle⟩ src ⟨id, Except.ok t⟩ =
      ⟨[⟨102, Payload.M [("message", JSONValue.str "Validation Error for TODO"),
                         ("error", JSONValue.str "")]⟩],
        ⟨some r, handle⟩, [], Outcome.returned⟩ ∧
    (createTodo ⟨some r, handle⟩ src ⟨id, Except.error err⟩).w.map Response.status = [102] ∧
    (createTodo ⟨some r, handle⟩ src ⟨id, Except.ok t⟩).w.map Response.status = [102] ∧
    (createTodo ⟨some r, handle⟩ src ⟨id, Except.error err⟩).w.map Response.message ≠
      (createTodo ⟨some r, handle⟩ src ⟨id, Except.ok t⟩).w.map Response.message := by
  have h1 : createTodo ⟨some r, handle⟩ src ⟨id, Except.error err⟩ =
      ⟨[⟨102, Payload.M [("message", JSONValue.str "failed to fetch todo"),
                         ("error", JSONValue.err err)]⟩],
        ⟨some r, handle⟩, [], Outcome.returned⟩ := by
    simp [createTodo, renderReturn, JSON, StatusProcessing]
  have h2 : createTodo ⟨some r, handle⟩ src ⟨id, Except.ok t⟩ =
      ⟨[⟨102, Payload.M [("message", JSONValue.str "Validation Error for TODO"),
                         ("error", JSONValue.str "")]⟩],
        ⟨some r, handle⟩, [], Outcome.returned⟩ := by
    simp [createTodo, hv, renderReturn, JSON, StatusProcessing]
  refine ⟨h1, h2, ?_, ?_, ?_⟩
  · rw [h1]
    rfl
  · rw [h2]
    rfl
  · rw [h1, h2]
    simp [Response.message, List.lookup]

/-- C6 at a concrete request: a body that fails to decode, and the payload
whose title is a single space, on the store holding the "buy milk" record. -/
theorem createTodo_rejects_without_insert_witness :
    validateTodoObject ⟨"", " ", false, Time.zero⟩ = false ∧
    (createTodo ⟨some Render.New, some milkStore⟩ milkSource ⟨"", Except.error "EOF"⟩ =
      ⟨[⟨102, Payload.M [("message", JSONValue.str "failed to fetch todo"),
                         ("error", JSONValue.err "EOF")]⟩],
        ⟨some Render.New, some milkStore⟩, [], Outcome.returned⟩ ∧
    createTodo ⟨some Render.New, some milkStore⟩ milkSource
        ⟨"", Except.ok ⟨"", " ", false, Time.zero⟩⟩ =
      ⟨[⟨102, Payload.M [("message", JSONValue.str "Validation Error for TODO"),
                         ("error", JSONValue.str "")]⟩],
        ⟨some Render.New, some milkStore⟩, [], Outcome.returned⟩ ∧
    (createTodo ⟨some Render.New, some milkStore⟩ milkSource
        ⟨"", Except.error "EOF"⟩).w.map Response.status = [102] ∧
    (createTodo ⟨some Render.New, some milkStore⟩ milkSource
        ⟨"", Except.ok ⟨"", " ", false, Time.zero⟩⟩).w.map Response.status = [102] ∧
    (createTodo ⟨some Render.New, some milkStore⟩ milkSource
        ⟨"", Except.error "EOF"⟩).w.map Response.message ≠
      (createTodo ⟨some Render.New, some milkStore⟩ milkSource
        ⟨"", Except.ok ⟨"", " ", false, Time.zero⟩⟩).w.map Response.message) :=
  ⟨by decide,
   createTodo_rejects_without_insert Render.New (some milkStore) milkSource "" "EOF"
     ⟨"", " ", false, Time.zero⟩ (by decide)⟩

/-- C7: with a store handle and a well-formed trimmed id, `deleteTodo` calls
`RemoveId` once and returns; the last response it renders is status 200 with
message "todo deleted successfully", whether the removal succeeded or
returned an error.  On an error that response comes second, after a 102
envelope with message "Failed to delete todo"; on success it is the only
response. -/
theorem deleteTodo_renders_200_last (r : Render) (db : Database) (req : Request)
    (hid : IsObjectIdHex (TrimSpace req.id) = true) :
    (deleteTodo ⟨some r, some db⟩ req).w.getLast? =
      some ⟨200, Payload.M [("message", JSONValue.str "todo deleted successfully")]⟩ ∧
    (deleteTodo ⟨some r, some db⟩ req).w =
      (match ((db.C collectionName).RemoveId (Value.string (TrimSpace req.id))).2 with
       | some e =>
         [⟨102, Payload.M [("message", JSONValue.str "Failed to delete todo"),
                           ("error", JSONValue.err e)]⟩,
          ⟨200, Payload.M [("message", JSONValue.str "todo deleted successfully")]⟩]
       | none =>
         [⟨200, Payload.M [("message", JSONValue.str "todo deleted successfully")]⟩]) ∧
    (deleteTodo ⟨some r, some db⟩ req).outcome = Outcome.returned ∧
    (deleteTodo ⟨some r, some db⟩ req).ops =
      [StoreOp.removeId collectionName (Value.string (TrimSpace req.id))] := by
  rcases hrem : (db.C collectionName).RemoveId (Value.string (TrimSpace req.id))
    with ⟨db2, _ | e⟩
  · simp [deleteTodo, hid, hrem, renderReturn, JSON, StatusOK]
  · simp [deleteTodo, hid, hrem, renderReturn, JSON, StatusOK, StatusProcessing]

/-- C7 at a concrete request: the hex id of the stored "buy milk" record,
padded with blanks. -/
theorem deleteTodo_renders_200_last_witness :
    IsObjectIdHex (TrimSpace (⟨" 65920080aabbcc1f90000001 ", Except.error "EOF"⟩ : Request).id)
      = true ∧
    ((deleteTodo ⟨some Render.New, some milkStore⟩
        ⟨" 65920080aabbcc1f90000001 ", Except.error "EOF"⟩).w.getLast? =
      some ⟨200, Payload.M [("message", JSONValue.str "todo deleted successfully")]⟩ ∧
    (deleteTodo ⟨some Render.New, some milkStore⟩
        ⟨" 65920080aabbcc1f90000001 ", Except.error "EOF"⟩).w =
      (match ((milkStore.C collectionName).RemoveId (Value.string (TrimSpace
          (⟨" 65920080aabbcc1f90000001 ", Except.error "EOF"⟩ : Request).id))).2 with
       | some e =>
         [⟨102, Payload.M [("message", JSONValue.str "Failed to delete todo"),
                           ("error", JSONValue.err e)]⟩,
          ⟨200, Payload.M [("message", JSONValue.str "todo deleted successfully")]⟩]
       | none =>
         [⟨200, Payload.M [("message", JSONValue.str "todo deleted successfully")]⟩]) ∧
    (deleteTodo ⟨some Render.New, some milkStore⟩
        ⟨" 65920080aabbcc1f90000001 ", Except.error "EOF"⟩).outcome = Outcome.returned ∧
    (deleteTodo ⟨some Render.New, some milkStore⟩
        ⟨" 65920080aabbcc1f90000001 ", Except.error "EOF"⟩).ops =
      [StoreOp.removeId collectionName (Value.string (TrimSpace
        (⟨" 65920080aabbcc1f90000001 ", Except.error "EOF"⟩ : Request).id))]) :=
  ⟨by decide,
   deleteTodo_renders_200_last Render.New milkStore
     ⟨" 65920080aabbcc1f90000001 ", Except.error "EOF"⟩ (by decide)⟩

/-- C8 (the code departs from the claim): on the store holding the "buy milk"
and "buy tea" records, `fetchTodos` answers 200 with two entries in store
order carrying the titles and completed values, but each entry's identifier
is the empty string, not the hex form of the record's `_id`, and each
createdAt is the zero time, not the record's; on a failed connection it
answers 102 with an error envelope. -/
theorem fetchTodos_entry_has_empty_id :
    fetchTodos ⟨some Render.New, some pantryStore⟩ ⟨"", Except.error "EOF"⟩ =
      ⟨[⟨200, Payload.M [("data", JSONValue.todos
          [⟨"", "buy milk", true, Time.zero⟩, ⟨"", "buy tea", false, Time.zero⟩])]⟩],
        ⟨some Render.New, some pantryStore⟩, [StoreOp.findAll "todo"], Outcome.returned⟩ ∧
    (pantryStore.C collectionName).docs.map todoModel.unmarshal =
      [⟨[0x65, 0x92, 0x00, 0x80, 0xaa, 0xbb, 0xcc, 0x1f, 0x90, 0, 0, 1], "buy milk", true,
          ⟨1704067200000000000⟩⟩,
       ⟨[0x65, 0x92, 0x00, 0x81, 0xaa, 0xbb, 0xcc, 0x1f, 0x90, 0, 0, 2], "buy tea", false,
          ⟨1704067201000000000⟩⟩] ∧
    (pantryStore.C collectionName).docs.map (fun d => Hex (todoModel.unmarshal d).ID) =
      ["65920080aabbcc1f90000001", "65920081aabbcc1f90000002"] ∧
    fetchTodos ⟨some Render.New, some ⟨some "no reachable servers", []⟩⟩
        ⟨"", Except.error "EOF"⟩ =
      ⟨[⟨102, Payload.M [("message", JSONValue.str "Failed to fetch todo"),
                         ("error", JSONValue.err "no reachable servers")]⟩],
        ⟨some Render.New, some ⟨some "no reachable servers", []⟩⟩,
        [StoreOp.findAll "todo"], Outcome.returned⟩ := by
  decide

/-- C9: with a well-formed trimmed id, `updateTodo` checks in the order
decode, validate, store update, and the first failure decides the single
response.  A body that does not decode yields 102 and no store call; a
decoded payload that `validateTodoObject` rejects yields 400 and no store
call (both whatever the store handle); with a store handle and a valid
payload the one store call is the title update selected by the decoded id,
an error from it yields 400 with message "Failed to update todo", and its
success yields no response at all. -/
theorem updateTodo_first_failure_decides (r : Render) (handle : Option Database)
    (db : Database) (id : String) (err : Error) (bad good : todo)
    (hid : IsObjectIdHex (TrimSpace id) = true)
    (hbad : validateTodoObject bad = false) (hgood : validateTodoObject good = true) :
    updateTodo ⟨some r, handle⟩ ⟨id, Except.error err⟩ =
      ⟨[⟨102, Payload.err err⟩], ⟨some r, handle⟩, [], Outcome.returned⟩ ∧
    updateTodo ⟨some r, handle⟩ ⟨id, Except.ok bad⟩ =
      ⟨[⟨400, Payload.M [("message", JSONValue.str "Invalid todo id"),
                         ("error", JSONValue.str "validation failed")]⟩],
        ⟨some r, handle⟩, [], Outcome.returned⟩ ∧
    ∃ oid : ObjectId, ObjectIdHex (TrimSpace id) = some oid ∧
      updateTodo ⟨some r, some db⟩ ⟨id, Except.ok good⟩ =
        (match (db.C collectionName).Update [("_id", Value.objectId oid)]
            [("title", Value.string good.Title)] with
         | (db2, some e) =>
           ⟨[⟨400, Payload.M [("message", JSONValue.str "Failed to update todo"),
                              ("error", JSONValue.err e)]⟩],
             ⟨some r, some db2⟩,
             [StoreOp.update collectionName [("_id", Value.objectId oid)]
               [("title", Value.string good.Title)]],
             Outcome.returned⟩
         | (db2, none) =>
           ⟨[], ⟨some r, some db2⟩,
             [StoreOp.update collectionName [("_id", Value.objectId oid)]
               [("title", Value.string good.Title)]],
             Outcome.returned⟩) := by
  refine ⟨?_, ?_, ?_⟩
  · simp [updateTodo, hid, renderReturn, JSON, StatusProcessing]
  · simp [updateTodo, hid, hbad, renderReturn, JSON, StatusBadRequest]
  · obtain ⟨oid, hoid, _⟩ := ObjectIdHex_of_IsObjectIdHex _ hid
    refine ⟨oid, hoid, ?_⟩
    rcases hu : (db.C collectionName).Update [("_id", Value.objectId oid)]
      [("title", Value.string good.Title)] with ⟨db2, _ | e⟩
    · simp [updateTodo, hid, hgood, hoid, hu]
    · simp [updateTodo, hid, hgood, hoid, hu, renderReturn, JSON, StatusBadRequest]

/-- C9 at a concrete request: the hex id of the stored "buy milk" record, an
undecodable body, the single-space title and the title "buy bread". -/
theorem updateTodo_first_failure_decides_witness :
    IsObjectIdHex (TrimSpace milkHex) = true ∧
    validateTodoObject ⟨"", " ", false, Time.zero⟩ = false ∧
    validateTodoObject ⟨"", "buy bread", false, Time.zero⟩ = true ∧
    (updateTodo ⟨some Render.New, none⟩ ⟨milkHex, Except.error "EOF"⟩ =
      ⟨[⟨102, Payload.err "EOF"⟩], ⟨some Render.New, none⟩, [], Outcome.returned⟩ ∧
    updateTodo ⟨some Render.New, none⟩ ⟨milkHex, Except.ok ⟨"", " ", false, Time.zero⟩⟩ =
      ⟨[⟨400, Payload.M [("message", JSONValue.str "Invalid todo id"),
                         ("error", JSONValue.str "validation failed")]⟩],
        ⟨some Render.New, none⟩, [], Outcome.returned⟩ ∧
    ∃ oid : ObjectId, ObjectIdHex (TrimSpace milkHex) = some oid ∧
      updateTodo ⟨some Render.New, some milkStore⟩
          ⟨milkHex, Except.ok ⟨"", "buy bread", false, Time.zero⟩⟩ =
        (match (milkStore.C collectionName).Update [("_id", Value.objectId oid)]
            [("title", Value.string (⟨"", "buy bread", false, Time.zero⟩ : todo).Title)] with
         | (db2, some e) =>
           ⟨[⟨400, Payload.M [("message", JSONValue.str "Failed to update todo"),
                              ("error", JSONValue.err e)]⟩],
             ⟨some Render.New, some db2⟩,
             [StoreOp.update collectionName [("_id", Value.objectId oid)]
               [("title", Value.string (⟨"", "buy bread", false, Time.zero⟩ : todo).Title)]],
             Outcome.returned⟩
         | (db2, none) =>
           ⟨[], ⟨some Render.New, some db2⟩,
             [StoreOp.update collectionName [("_id", Value.objectId oid)]
               [("title", Value.string (⟨"", "buy bread", false, Time.zero⟩ : todo).Title)]],
             Outcome.returned⟩)) :=
  ⟨by decide, by decide, by decide,
   updateTodo_first_failure_decides Render.New none milkStore milkHex "EOF"
     ⟨"", " ", false, Time.zero⟩ ⟨"", "buy bread", false, Time.zero⟩
     (by decide) (by decide) (by decide)⟩

/-- C10: `init` with a successful dial sets the renderer and the session mode
and leaves `db` as it was, nil on the boot globals; no handler changes which
of the two globals are nil; so in every state reachable after startup `db` is
nil, serving any request leaves the globals as they are, and each handler
path that reaches `db.C` (create with a valid payload, update with a
well-formed id and a valid payload, delete with a well-formed id, every list
request) panics on the nil handle with no response rendered and no store
call issued. -/
theorem db_stays_nil_after_startup (p : Process) (dial : String → Except Error Session)
    (sess : Session) (src : IdSource) (id : String) (t : todo)
    (h : Reachable p) (hd : dial hostName = Except.ok sess)
    (hid : IsObjectIdHex (TrimSpace id) = true) (hv : validateTodoObject t = true) :
    (∀ q : Process, init q dial =
      ⟨⟨some Render.New, q.db⟩, some ⟨sess.host, Mode.Monotonic⟩, Outcome.returned⟩) ∧
    (init Process.boot dial).proc.db = none ∧
    (∀ (q : Process) (c : Call),
      (serve q c).proc.rnd = q.rnd ∧ ((serve q c).proc.db = none ↔ q.db = none)) ∧
    p.db = none ∧
    (∀ c : Call, (serve p c).proc = p) ∧
    createTodo p src ⟨id, Except.ok t⟩ = ⟨[], p, [], Outcome.panicked⟩ ∧
    updateTodo p ⟨id, Except.ok t⟩ = ⟨[], p, [], Outcome.panicked⟩ ∧
    (∀ body : Except Error todo, deleteTodo p ⟨id, body⟩ = ⟨[], p, [], Outcome.panicked⟩) ∧
    (∀ req : Request, fetchTodos p req = ⟨[], p, [], Outcome.panicked⟩) := by
  have hnil := (reachable_db_nil p h).2
  refine ⟨?_, ?_, serve_keeps_handles, hnil, ?_, ?_, ?_, ?_, ?_⟩
  · intro q
    simp [init, hd, checkErr, Session.SetMode]
  · rw [init_db]
    rfl
  · intro c
    exact serve_proc_of_nil p c hnil
  · simp [createTodo, hv, hnil]
  · simp [updateTodo, hid, hv, hnil]
  · intro body
    simp [deleteTodo, hid, hnil]
  · intro req
    simp [fetchTodos, hnil]

/-- C10 at the state `init` leaves after a successful dial, with the "buy
milk" payload and its hex id. -/
theorem db_stays_nil_after_startup_witness :
    Reachable (init Process.boot standardDial).proc ∧
    standardDial hostName = Except.ok ⟨hostName, Mode.Strong⟩ ∧
    IsObjectIdHex (TrimSpace milkHex) = true ∧
    validateTodoObject milkPayload = true ∧
    ((∀ q : Process, init q standardDial =
      ⟨⟨some Render.New, q.db⟩,
        some ⟨(⟨hostName, Mode.Strong⟩ : Session).host, Mode.Monotonic⟩,
        Outcome.returned⟩) ∧
    (init Process.boot standardDial).proc.db = none ∧
    (∀ (q : Process) (c : Call),
      (serve q c).proc.rnd = q.rnd ∧ ((serve q c).proc.db = none ↔ q.db = none)) ∧
    (init Process.boot standardDial).proc.db = none ∧
    (∀ c : Call, (serve (init Process.boot standardDial).proc c).proc =
      (init Process.boot standardDial).proc) ∧
    createTodo (init Process.boot standardDial).proc milkSource ⟨milkHex, Except.ok milkPayload⟩ =
      ⟨[], (init Process.boot standardDial).proc, [], Outcome.panicked⟩ ∧
    updateTodo (init Process.boot standardDial).proc ⟨milkHex, Except.ok milkPayload⟩ =
      ⟨[], (init Process.boot standardDial).proc, [], Outcome.panicked⟩ ∧
    (∀ body : Except Error todo,
      deleteTodo (init Process.boot standardDial).proc ⟨milkHex, body⟩ =
        ⟨[], (init Process.boot standardDial).proc, [], Outcome.panicked⟩) ∧
    (∀ req : Request, fetchTodos (init Process.boot standardDial).proc req =
      ⟨[], (init Process.boot standardDial).proc, [], Outcome.panicked⟩)) :=
  ⟨Reachable.start standardDial rfl, rfl, by decide, by decide,
   db_stays_nil_after_startup (init Process.boot standardDial).proc standardDial
     ⟨hostName, Mode.Strong⟩ milkSource milkHex milkPayload
     (Reachable.start standardDial rfl) rfl (by decide) (by decide)⟩

end GoCrud
